import Mathlib

/-!
Shallow embedding of the map-search web client (`src/static/js/script.js`).

The client's search coordinator (`performSearch`), the frustum highlight
update, the result-grid rebuild, the hover highlight handlers, the
`debounce` wrapper and the pose-inversion code of `loadAndDrawFrustums`
are translated into pure Lean functions.  JavaScript numbers are modelled
as rational numbers (every finite IEEE double is a rational, and none of
the verified properties depends on rounding); DOM contents are modelled
as explicit data (a grid is
either a list of cards or an error message); asynchronous completions are
modelled by passing the server's response as an explicit argument.
-/

namespace MapSearch

/-- RGB color with one real channel per component, as `THREE.Color`. -/
@[ext] structure Color where
  r : ℚ
  g : ℚ
  b : ℚ

/-- `new THREE.Color(0x888888)` / `setHex(0x888888)`: the default grey
(each channel `0x88/255 = 136/255`). -/
def defaultColor : Color := ⟨136 / 255, 136 / 255, 136 / 255⟩

/-- `new THREE.Color(0xff0000)`: the search highlight red. -/
def highlightRed : Color := ⟨1, 0, 0⟩

/-- `new THREE.Color(0x00ff00)`: the hover highlight green. -/
def hoverGreen : Color := ⟨0, 1, 0⟩

/-- `THREE.Color.lerp`: `this.r += (color.r - this.r) * alpha`, likewise
for `g` and `b` (the source uses `clone().lerp(...)`, so this returns the
interpolated color). -/
def lerpColor (c target : Color) (alpha : ℚ) : Color :=
  ⟨c.r + (target.r - c.r) * alpha,
   c.g + (target.g - c.g) * alpha,
   c.b + (target.b - c.b) * alpha⟩

/-- The mutable state of one frustum entity that the search and hover
code touches: its `visible` flag and its material color. -/
@[ext] structure Frustum where
  visible : Bool
  color : Color

/-- `Math.max(...scores)` on a non-empty argument list (the source guards
with `data.results.length > 0` before spreading). -/
def listMax : List ℚ → ℚ
  | [] => 0
  | h :: t => t.foldl max h

/-- Lines 67-76 of `script.js`: `let maxScore = 0; if (length > 0) {
maxScore = Math.max(...scores); if (maxScore <= 0) maxScore = 1e-6; }`. -/
def computeMaxScore (results : List (String × ℚ)) : ℚ :=
  if results.length > 0 then
    let m := listMax (results.map (fun p => p.2))
    if m ≤ 0 then 1 / 1000000 else m
  else 0

/-- Line 96: `maxScore > 0 ? Math.max(0, Math.min(1, score / maxScore)) : 0`. -/
def normalizedScore (maxScore score : ℚ) : ℚ :=
  if maxScore > 0 then max 0 (min 1 (score / maxScore)) else 0

/-- Lines 96-102: the color assigned to a matching frustum, the default
grey lerped toward the highlight red by the normalized score. -/
def assignedColor (results : List (String × ℚ)) (score : ℚ) : Color :=
  lerpColor defaultColor highlightRed (normalizedScore (computeMaxScore results) score)

/-- Line 65 plus line 88: `new Map(results.map(([id, score]) => [String(id), score])).get(key)`.
A JavaScript `Map` built from a list with duplicate keys keeps the last
entry for each key, and `get` yields `undefined` (here `none`) on a miss.
Frame identifiers are modelled after stringification, so keys are strings. -/
def resultLookup (results : List (String × ℚ)) (key : String) : Option ℚ :=
  (results.reverse.find? (fun p => p.1 == key)).map (fun p => p.2)

/-- Lines 86-114: the per-frustum branch of the success handler.  A
frustum whose key scores becomes visible with the interpolated color; any
other frustum is hidden and its color copied back to the default grey. -/
def updateFrustum (results : List (String × ℚ)) (key : String) (f : Frustum) : Frustum :=
  match resultLookup results key with
  | some score => { f with visible := true, color := assignedColor results score }
  | none => { f with visible := false, color := defaultColor }

/-- What a result card displays: the `<img>` with its `src` and `title`,
or the fallback text installed by `img.onerror`. -/
inductive CardContent
  | image (src title : String)
  | errorText (msg : String)

/-- One result card: `card.dataset.frameId` plus its displayed content. -/
structure Card where
  frameId : String
  content : CardContent

/-- Lines 120-145: the card built for one result pair — `img.src =
/frame/<frameId>`, `img.title = Frame ID: <frameId>`. -/
def mkCard (frameId : String) : Card :=
  ⟨frameId, CardContent.image ("/frame/" ++ frameId) ("Frame ID: " ++ frameId)⟩

/-- Lines 136-139: the `img.onerror` handler replaces the card's content
with `Frame <frameId> (Error loading)`. -/
def cardOnImageError (c : Card) : Card :=
  { c with content := CardContent.errorText ("Frame " ++ c.frameId ++ " (Error loading)") }

/-- The `imageContainer` contents: a list of result cards (possibly
empty, after `innerHTML = ''`) or the red error paragraph. -/
inductive GridContent
  | cards (cs : List Card)
  | errorMsg (msg : String)

/-- The `/search` completion as seen by `performSearch`: a non-2xx
response (which throws with the status text), a body without an
array-valued `results` property, or a successful body of `[id, score]`
pairs (identifiers already stringified). -/
inductive SearchResponse
  | httpError (statusText : String)
  | malformed
  | ok (results : List (String × ℚ))

/-- The shared state `performSearch` mutates: the frustum map (keyed by
stringified frame id) and the result grid. -/
structure UIState where
  frustums : List (String × Frustum)
  grid : GridContent

/-- `searchTerm.trim()` (JavaScript `String.prototype.trim`): strip
leading and trailing whitespace.  Modelled directly on the character
list (drop whitespace from the front, then from the back) so that it
evaluates by kernel reduction. -/
def trimString (s : String) : String :=
  ⟨((s.data.dropWhile Char.isWhitespace).reverse.dropWhile Char.isWhitespace).reverse⟩

/-- The `error.message` shown by the catch handler (lines 53, 61, 151). -/
def searchErrorText : SearchResponse → String
  | SearchResponse.httpError st => "Error during search: Network response was not ok " ++ st
  | SearchResponse.malformed => "Error during search: Invalid data format received from server."
  | SearchResponse.ok _ => ""

/-- Lines 29-153: `performSearch(term)` as a state transformer.  The
returned boolean records whether a network request was issued.  On an
empty trimmed term the grid is cleared and every frustum reset (lines
35-45); on success the frustums are updated and the grid rebuilt; on an
error the catch handler only replaces the grid with the error message. -/
def performSearch (term : String) (resp : SearchResponse) (st : UIState) : UIState × Bool :=
  if trimString term = "" then
    ({ frustums := st.frustums.map (fun p => (p.1, { visible := true, color := defaultColor })),
       grid := GridContent.cards [] }, false)
  else
    match resp with
    | SearchResponse.ok results =>
        ({ frustums := st.frustums.map (fun p => (p.1, updateFrustum results p.1 p.2)),
           grid := GridContent.cards (results.map (fun p => mkCard p.1)) }, true)
    | r => ({ st with grid := GridContent.errorMsg (searchErrorText r) }, true)

/-- Truncation toward zero, as JavaScript's ToInt32 conversion performed
by the `<<` and `^` operators inside `THREE.Color.getHex`. -/
def truncToInt (x : ℚ) : ℤ := if 0 ≤ x then ⌊x⌋ else -⌊-x⌋

/-- Models `THREE.Color.getHexString()`: each channel is scaled by 255
and truncated to an integer; the triple stands for the six-hex-digit
string, which it determines and is determined by. -/
def getHexTriple (c : Color) : ℤ × ℤ × ℤ :=
  (truncToInt (c.r * 255), truncToInt (c.g * 255), truncToInt (c.b * 255))

/-- Models `THREE.Color.set('#rrggbb')` (the hex branch of `setStyle`):
each parsed channel is divided by 255. -/
def setFromHexTriple (h : ℤ × ℤ × ℤ) : Color :=
  ⟨(h.1 : ℚ) / 255, (h.2.1 : ℚ) / 255, (h.2.2 : ℚ) / 255⟩

/-- Lines 169-182: the `mouseover` handler for a card with a known
frustum.  `card.dataset.originalColor` is modelled as the optional hex
triple; it is stored only when not already present, then the frustum
color is set to green. -/
def mouseoverCard (originalColor : Option (ℤ × ℤ × ℤ)) (f : Frustum) :
    Option (ℤ × ℤ × ℤ) × Frustum :=
  let oc := match originalColor with
    | none => some (getHexTriple f.color)
    | some h => some h
  (oc, { f with color := hoverGreen })

/-- Lines 184-196: the `mouseout` handler.  When an original color is
stored, the frustum color is set from it and the attribute deleted;
otherwise nothing happens. -/
def mouseoutCard (originalColor : Option (ℤ × ℤ × ℤ)) (f : Frustum) :
    Option (ℤ × ℤ × ℤ) × Frustum :=
  match originalColor with
  | some h => (none, { f with color := setFromHexTriple h })
  | none => (originalColor, f)

/-- Lines 9-22: one run of the wrapper returned by `debounce(func, wait,
immediate)`.  `events` lists the calls to the wrapper as (time, payload)
pairs in time order, where the payload stands for the caller's argument
list together with its `this` context.  The accumulator is the pending
timeout as (expiry time, payload captured by its `later` closure); a
pending timeout fires as soon as simulated time reaches its expiry, and
a timeout still pending after the last call fires unimpeded.  Returns
the invocations of `func` as (time, payload) pairs. -/
def debounceRun {α : Type} (w : ℕ) (immediate : Bool) :
    List (ℕ × α) → Option (ℕ × α) → List (ℕ × α)
  | [], none => []
  | [], some (e, pa) => if immediate then [] else [(e, pa)]
  | (t, a) :: rest, none =>
      (if immediate then [(t, a)] else []) ++ debounceRun w immediate rest (some (t + w, a))
  | (t, a) :: rest, some (e, pa) =>
      if e ≤ t then
        (if immediate then [] else [(e, pa)]) ++ (if immediate then [(t, a)] else [])
          ++ debounceRun w immediate rest (some (t + w, a))
      else
        debounceRun w immediate rest (some (t + w, a))

/-- `THREE.Vector3`. -/
@[ext] structure Vec3 where
  x : ℚ
  y : ℚ
  z : ℚ

/-- `THREE.Quaternion`, stored `(x, y, z, w)` as in three.js. -/
@[ext] structure Quat where
  x : ℚ
  y : ℚ
  z : ℚ
  w : ℚ

/-- `THREE.Quaternion.invert()`: the conjugate (three.js assumes a unit
quaternion). -/
def Quat.invert (q : Quat) : Quat := ⟨-q.x, -q.y, -q.z, q.w⟩

/-- `THREE.Matrix4`, with `mRC` the entry in row `R`, column `C` (three.js
stores the elements column-major: `elements[4*C + R] = mRC`). -/
@[ext] structure Matrix4 where
  m00 : ℚ
  m01 : ℚ
  m02 : ℚ
  m03 : ℚ
  m10 : ℚ
  m11 : ℚ
  m12 : ℚ
  m13 : ℚ
  m20 : ℚ
  m21 : ℚ
  m22 : ℚ
  m23 : ℚ
  m30 : ℚ
  m31 : ℚ
  m32 : ℚ
  m33 : ℚ

/-- `THREE.Matrix4.compose(position, quaternion, scale)`, exactly as in
three.js (with `x2 = x + x`, `xx = x * x2`, and so on). -/
def composeMatrix (position : Vec3) (q : Quat) (scale : Vec3) : Matrix4 :=
  let x2 := q.x + q.x
  let y2 := q.y + q.y
  let z2 := q.z + q.z
  let xx := q.x * x2
  let xy := q.x * y2
  let xz := q.x * z2
  let yy := q.y * y2
  let yz := q.y * z2
  let zz := q.z * z2
  let wx := q.w * x2
  let wy := q.w * y2
  let wz := q.w * z2
  { m00 := (1 - (yy + zz)) * scale.x
    m10 := (xy + wz) * scale.x
    m20 := (xz - wy) * scale.x
    m30 := 0
    m01 := (xy - wz) * scale.y
    m11 := (1 - (xx + zz)) * scale.y
    m21 := (yz + wx) * scale.y
    m31 := 0
    m02 := (xz + wy) * scale.z
    m12 := (yz - wx) * scale.z
    m22 := (1 - (xx + yy)) * scale.z
    m32 := 0
    m03 := position.x
    m13 := position.y
    m23 := position.z
    m33 := 1 }

/-- `THREE.Matrix4.makeRotationFromQuaternion(q)`: `compose` with zero
position and unit scale. -/
def makeRotationFromQuaternion (q : Quat) : Matrix4 :=
  composeMatrix ⟨0, 0, 0⟩ q ⟨1, 1, 1⟩

/-- `THREE.Vector3.applyMatrix4(m)`, including the perspective divide by
`e[3]*x + e[7]*y + e[11]*z + e[15]`. -/
def Vec3.applyMatrix4 (v : Vec3) (m : Matrix4) : Vec3 :=
  let w := 1 / (m.m30 * v.x + m.m31 * v.y + m.m32 * v.z + m.m33)
  ⟨(m.m00 * v.x + m.m01 * v.y + m.m02 * v.z + m.m03) * w,
   (m.m10 * v.x + m.m11 * v.y + m.m12 * v.z + m.m13) * w,
   (m.m20 * v.x + m.m21 * v.y + m.m22 * v.z + m.m23) * w⟩

/-- `THREE.Vector3.multiplyScalar(s)`. -/
def Vec3.multiplyScalar (v : Vec3) (s : ℚ) : Vec3 := ⟨v.x * s, v.y * s, v.z * s⟩

/-- One `/frame_poses` record as consumed by `loadAndDrawFrustums`:
`qvec_world_to_cam` is scalar-first `[w, x, y, z]`, `tvec_world_to_cam`
is `[x, y, z]`. -/
structure PoseRecord where
  qvecW : ℚ
  qvecX : ℚ
  qvecY : ℚ
  qvecZ : ℚ
  tvecX : ℚ
  tvecY : ℚ
  tvecZ : ℚ

/-- Lines 352-357: `new THREE.Quaternion(qvec[1], qvec[2], qvec[3], qvec[0])`
(three.js takes `(x, y, z, w)`). -/
def poseQuat (p : PoseRecord) : Quat := ⟨p.qvecX, p.qvecY, p.qvecZ, p.qvecW⟩

/-- Lines 358-362: `new THREE.Vector3(tvec[0], tvec[1], tvec[2])`. -/
def poseTvec (p : PoseRecord) : Vec3 := ⟨p.tvecX, p.tvecY, p.tvecZ⟩

/-- Lines 364-376 of `loadAndDrawFrustums`: invert the quaternion, build
the rotation matrix from the inverse, set the translation to the rotated
world-to-camera translation negated, and `compose` the camera-to-world
matrix with unit scale. -/
def camToWorldTransform (p : PoseRecord) : Matrix4 :=
  let q_world_to_cam := poseQuat p
  let t_world_to_cam := poseTvec p
  let q_cam_to_world := q_world_to_cam.invert
  let R_cam_to_world := makeRotationFromQuaternion q_cam_to_world
  let t_cam_to_world := (t_world_to_cam.applyMatrix4 R_cam_to_world).multiplyScalar (-1)
  composeMatrix t_cam_to_world q_cam_to_world ⟨1, 1, 1⟩

/-- The world-to-camera rigid transform that the pose record encodes (the
comment on lines 346-350 and spec §4.3: rotation by the world-to-camera
quaternion followed by the world-to-camera translation), composed with
unit scale under the same three.js conventions. -/
def worldToCamTransform (p : PoseRecord) : Matrix4 :=
  composeMatrix (poseTvec p) (poseQuat p) ⟨1, 1, 1⟩

/-- `q` has unit norm (COLMAP world-to-camera quaternions are unit). -/
def Quat.isUnit (q : Quat) : Prop := q.x ^ 2 + q.y ^ 2 + q.z ^ 2 + q.w ^ 2 = 1

/-! ### Helper lemmas about `listMax` -/

theorem le_foldl_max (l : List ℚ) (a : ℚ) : a ≤ l.foldl max a := by
  induction l generalizing a with
  | nil => simp
  | cons h t ih => exact le_trans (le_max_left a h) (ih (max a h))

theorem mem_le_foldl_max {x : ℚ} (l : List ℚ) (a : ℚ) (hx : x ∈ l) : x ≤ l.foldl max a := by
  induction l generalizing a with
  | nil => cases hx
  | cons h t ih =>
      rcases List.mem_cons.mp hx with rfl | hxt
      · exact le_trans (le_max_right a x) (le_foldl_max t (max a x))
      · exact ih (max a h) hxt

theorem foldl_max_mem (l : List ℚ) (a : ℚ) : l.foldl max a ∈ a :: l := by
  induction l generalizing a with
  | nil => simp
  | cons h t ih =>
      rcases List.mem_cons.mp (ih (max a h)) with hm | hm
      · rcases max_choice a h with hc | hc
        · exact List.mem_cons.mpr (Or.inl (hm.trans hc))
        · exact List.mem_cons.mpr (Or.inr (List.mem_cons.mpr (Or.inl (hm.trans hc))))
      · exact List.mem_cons.mpr (Or.inr (List.mem_cons.mpr (Or.inr hm)))

theorem listMax_mem {l : List ℚ} (h : l ≠ []) : listMax l ∈ l := by
  cases l with
  | nil => exact absurd rfl h
  | cons a t =>
      rcases List.mem_cons.mp (foldl_max_mem t a) with hm | hm
      · exact List.mem_cons.mpr (Or.inl hm)
      · exact List.mem_cons.mpr (Or.inr hm)

theorem le_listMax {l : List ℚ} {x : ℚ} (hx : x ∈ l) : x ≤ listMax l := by
  cases l with
  | nil => cases hx
  | cons a t =>
      rcases List.mem_cons.mp hx with rfl | hxt
      · exact le_foldl_max t x
      · exact mem_le_foldl_max t a hxt

/-! ### Claims -/

/-- C2: for every successful search response whose results all have
score ≤ 0 (and there is at least one result to take a maximum of),
`performSearch` substitutes the small positive epsilon `1e-6` for the
maximum, so the score normalization never divides by zero or by a
negative number. -/
theorem c2_epsilon_substitution (results : List (String × ℚ))
    (hne : results ≠ []) (hle : ∀ p ∈ results, p.2 ≤ 0) :
    computeMaxScore results = 1 / 1000000 ∧ 0 < computeMaxScore results := by
  have hlen : results.length > 0 := List.length_pos.mpr hne
  have hmapne : results.map (fun p => p.2) ≠ [] := by
    simpa using hne
  have hmem := listMax_mem hmapne
  rcases List.mem_map.mp hmem with ⟨p, hp, hpx⟩
  have hmax : listMax (results.map (fun p => p.2)) ≤ 0 := hpx ▸ hle p hp
  constructor
  · simp only [computeMaxScore, if_pos hlen, if_pos hmax]
  · simp only [computeMaxScore, if_pos hlen, if_pos hmax]
    norm_num

/-- Witness for C2 at the concrete response `[("7", -1/2)]`. -/
theorem c2_epsilon_substitution_witness :
    ([(("7" : String), (-1 : ℚ)/2)] ≠ []) ∧
    (∀ p ∈ [(("7" : String), (-1 : ℚ)/2)], p.2 ≤ 0) ∧
    (computeMaxScore [(("7" : String), (-1 : ℚ)/2)] = 1 / 1000000 ∧
      0 < computeMaxScore [(("7" : String), (-1 : ℚ)/2)]) :=
  ⟨by simp,
    by rintro p hp; rcases List.mem_singleton.mp hp with rfl; norm_num,
    c2_epsilon_substitution [(("7" : String), (-1 : ℚ)/2)] (by simp)
      (by rintro p hp; rcases List.mem_singleton.mp hp with rfl; norm_num)⟩

/-- C5: for every search term that trims to the empty string,
`performSearch` clears the result grid, resets every known frustum to
visible with the default grey color (keys unchanged), and issues no
network request. -/
theorem c5_empty_term_reset (term : String) (resp : SearchResponse) (st : UIState)
    (hterm : trimString term = "") :
    (performSearch term resp st).2 = false ∧
    (performSearch term resp st).1.grid = GridContent.cards [] ∧
    (performSearch term resp st).1.frustums =
      st.frustums.map (fun p => (p.1, { visible := true, color := defaultColor })) ∧
    ∀ k f, (k, f) ∈ (performSearch term resp st).1.frustums →
      f.visible = true ∧ f.color = defaultColor := by
  refine ⟨by simp [performSearch, hterm], by simp [performSearch, hterm],
    by simp [performSearch, hterm], ?_⟩
  intro k f hmem
  simp only [performSearch, hterm, if_pos] at hmem
  rcases List.mem_map.mp hmem with ⟨p, -, hp⟩
  simp only [Prod.mk.injEq] at hp
  obtain ⟨-, rfl⟩ := hp
  exact ⟨rfl, rfl⟩

/-- Witness for C5 at the whitespace-only term `"   "`. -/
theorem c5_empty_term_reset_witness :
    trimString "   " = "" ∧
    ((performSearch "   " SearchResponse.malformed
        ⟨[("3", ⟨false, highlightRed⟩)], GridContent.errorMsg "old"⟩).2 = false ∧
      (performSearch "   " SearchResponse.malformed
        ⟨[("3", ⟨false, highlightRed⟩)], GridContent.errorMsg "old"⟩).1.grid =
        GridContent.cards [] ∧
      (performSearch "   " SearchResponse.malformed
        ⟨[("3", ⟨false, highlightRed⟩)], GridContent.errorMsg "old"⟩).1.frustums =
        ([("3", ⟨false, highlightRed⟩)] : List (String × Frustum)).map
          (fun p => (p.1, { visible := true, color := defaultColor })) ∧
      ∀ k f, (k, f) ∈ (performSearch "   " SearchResponse.malformed
          ⟨[("3", ⟨false, highlightRed⟩)], GridContent.errorMsg "old"⟩).1.frustums →
        f.visible = true ∧ f.color = defaultColor) :=
  ⟨by decide,
    c5_empty_term_reset "   " SearchResponse.malformed
      ⟨[("3", ⟨false, highlightRed⟩)], GridContent.errorMsg "old"⟩ (by decide)⟩

theorem resultLookup_isSome_iff (results : List (String × ℚ)) (key : String) :
    (resultLookup results key).isSome ↔ key ∈ results.map (fun p => p.1) := by
  simp only [resultLookup, Option.isSome_map', List.find?_isSome, List.mem_reverse,
    List.mem_map, beq_iff_eq]

/-- C4: after a successful search with a non-empty trimmed term, every
known frustum whose key appears in the results is visible and every
other known frustum is hidden. -/
theorem c4_result_visibility (term : String) (results : List (String × ℚ)) (st : UIState)
    (hterm : trimString term ≠ "") :
    ∀ k f, (k, f) ∈ (performSearch term (SearchResponse.ok results) st).1.frustums →
      (k ∈ results.map (fun p => p.1) → f.visible = true) ∧
      (k ∉ results.map (fun p => p.1) → f.visible = false) := by
  intro k f hmem
  simp only [performSearch, if_neg hterm] at hmem
  rcases List.mem_map.mp hmem with ⟨p, hp, heq⟩
  simp only [Prod.mk.injEq] at heq
  obtain ⟨h1, rfl⟩ := heq
  subst h1
  constructor
  · intro hk
    have hs := (resultLookup_isSome_iff results p.1).mpr hk
    rcases Option.isSome_iff_exists.mp hs with ⟨score, hscore⟩
    simp [updateFrustum, hscore]
  · intro hk
    have hn : resultLookup results p.1 = none :=
      Option.not_isSome_iff_eq_none.mp
        (fun h => hk ((resultLookup_isSome_iff results p.1).mp h))
    simp [updateFrustum, hn]

/-- Witness for C4: term `"cat"`, one matching and one non-matching
frustum. -/
theorem c4_result_visibility_witness :
    trimString "cat" ≠ "" ∧
    (∀ k f, (k, f) ∈ (performSearch "cat" (SearchResponse.ok [("12", (9 : ℚ)/10)])
        ⟨[("12", ⟨false, defaultColor⟩), ("3", ⟨true, highlightRed⟩)],
          GridContent.cards []⟩).1.frustums →
      (k ∈ ([("12", (9 : ℚ)/10)] : List (String × ℚ)).map (fun p => p.1) → f.visible = true) ∧
      (k ∉ ([("12", (9 : ℚ)/10)] : List (String × ℚ)).map (fun p => p.1) → f.visible = false)) :=
  ⟨by decide,
    c4_result_visibility "cat" [("12", (9 : ℚ)/10)]
      ⟨[("12", ⟨false, defaultColor⟩), ("3", ⟨true, highlightRed⟩)], GridContent.cards []⟩
      (by decide)⟩

/-- C9: a successful search rebuilds the grid with exactly one card per
result pair in server order, each card's image loaded from
`/frame/<frameId>`, and the image error handler replaces a card's
content with the error text. -/
theorem c9_grid_rebuild (term : String) (results : List (String × ℚ)) (st : UIState)
    (hterm : trimString term ≠ "") :
    (performSearch term (SearchResponse.ok results) st).1.grid =
      GridContent.cards (results.map (fun p => mkCard p.1)) ∧
    (∀ i : ℕ, ((results.map (fun p => mkCard p.1))[i]?).map Card.frameId =
      (results[i]?).map (fun p => p.1)) ∧
    (∀ frameId, cardOnImageError (mkCard frameId) =
      ⟨frameId, CardContent.errorText ("Frame " ++ frameId ++ " (Error loading)")⟩) := by
  refine ⟨by simp [performSearch, hterm], ?_, ?_⟩
  · intro i
    cases h : results[i]? <;> simp [List.getElem?_map, h, mkCard]
  · intro frameId
    rfl

/-- Witness for C9 at the spec scenario: results `[["12",0.9],["7",0.2]]`. -/
theorem c9_grid_rebuild_witness :
    trimString "person walking" ≠ "" ∧
    ((performSearch "person walking"
        (SearchResponse.ok [("12", (9 : ℚ)/10), ("7", (2 : ℚ)/10)])
        ⟨[], GridContent.cards []⟩).1.grid =
      GridContent.cards (([("12", (9 : ℚ)/10), ("7", (2 : ℚ)/10)] : List (String × ℚ)).map
        (fun p => mkCard p.1)) ∧
     (∀ i : ℕ, ((([("12", (9 : ℚ)/10), ("7", (2 : ℚ)/10)] : List (String × ℚ)).map
        (fun p => mkCard p.1))[i]?).map Card.frameId =
      (([("12", (9 : ℚ)/10), ("7", (2 : ℚ)/10)] : List (String × ℚ))[i]?).map (fun p => p.1)) ∧
     (∀ frameId, cardOnImageError (mkCard frameId) =
      ⟨frameId, CardContent.errorText ("Frame " ++ frameId ++ " (Error loading)")⟩)) :=
  ⟨by decide,
    c9_grid_rebuild "person walking" [("12", (9 : ℚ)/10), ("7", (2 : ℚ)/10)]
      ⟨[], GridContent.cards []⟩ (by decide)⟩

/-- C10 (implicit): a frustum absent from the results is not only hidden
but also reset to the default grey; an empty results array hides and
resets every frustum, and the `maxScore > 0` guard makes the normalized
score 0 there instead of dividing by the zero maximum. -/
theorem c10_absent_frustums_reset (term : String) (results : List (String × ℚ)) (st : UIState)
    (hterm : trimString term ≠ "") :
    (∀ k f, (k, f) ∈ (performSearch term (SearchResponse.ok results) st).1.frustums →
        k ∉ results.map (fun p => p.1) →
        f.visible = false ∧ f.color = defaultColor) ∧
    (results = [] →
      ∀ k f, (k, f) ∈ (performSearch term (SearchResponse.ok results) st).1.frustums →
        f.visible = false ∧ f.color = defaultColor) ∧
    computeMaxScore [] = 0 ∧
    (∀ s : ℚ, normalizedScore (computeMaxScore []) s = 0) := by
  have key : ∀ k f, (k, f) ∈ (performSearch term (SearchResponse.ok results) st).1.frustums →
      k ∉ results.map (fun p => p.1) → f.visible = false ∧ f.color = defaultColor := by
    intro k f hmem hk
    simp only [performSearch, if_neg hterm] at hmem
    rcases List.mem_map.mp hmem with ⟨p, hp, heq⟩
    simp only [Prod.mk.injEq] at heq
    obtain ⟨h1, rfl⟩ := heq
    subst h1
    have hn : resultLookup results p.1 = none :=
      Option.not_isSome_iff_eq_none.mp
        (fun h => hk ((resultLookup_isSome_iff results p.1).mp h))
    simp [updateFrustum, hn]
  refine ⟨key, ?_, by simp [computeMaxScore], by simp [normalizedScore, computeMaxScore]⟩
  rintro rfl k f hmem
  exact key k f hmem (by simp)

theorem normalizedScore_mono {M s₁ s₂ : ℚ} (h : s₁ ≤ s₂) :
    normalizedScore M s₁ ≤ normalizedScore M s₂ := by
  unfold normalizedScore
  split
  · next hM =>
      have hdiv : s₁ / M ≤ s₂ / M := (div_le_div_iff_of_pos_right hM).mpr h
      exact max_le_max le_rfl (min_le_min le_rfl hdiv)
  · exact le_rfl

/-- C3: the frustum color assigned by `performSearch` is the lerp from
the default grey toward the highlight red by the clamped normalized
score; a score equal to the positive maximum yields exactly the
highlight color, and the red channel is monotone in the score. -/
theorem c3_color_interpolation (results : List (String × ℚ)) (key : String) (f : Frustum)
    (score s₁ s₂ : ℚ) (hlook : resultLookup results key = some score) (h12 : s₁ ≤ s₂)
    (hpos : 0 < listMax (results.map (fun p => p.2))) :
    updateFrustum results key f =
      { f with visible := true, color := assignedColor results score } ∧
    assignedColor results score =
      lerpColor defaultColor highlightRed (normalizedScore (computeMaxScore results) score) ∧
    (assignedColor results s₁).r ≤ (assignedColor results s₂).r ∧
    assignedColor results (listMax (results.map (fun p => p.2))) = highlightRed := by
  refine ⟨by simp [updateFrustum, hlook], rfl, ?_, ?_⟩
  · have hm := normalizedScore_mono (M := computeMaxScore results) h12
    simp only [assignedColor, lerpColor, defaultColor, highlightRed]
    have := mul_le_mul_of_nonneg_left hm (by norm_num : (0 : ℚ) ≤ 1 - 136/255)
    linarith
  · have hne : results ≠ [] := by
      rintro rfl
      simp [resultLookup] at hlook
    have hlen : results.length > 0 := List.length_pos.mpr hne
    have hM : computeMaxScore results = listMax (results.map (fun p => p.2)) := by
      simp only [computeMaxScore, if_pos hlen, if_neg (not_le.mpr hpos)]
    have hns : normalizedScore (listMax (results.map (fun p => p.2)))
        (listMax (results.map (fun p => p.2))) = 1 := by
      unfold normalizedScore
      rw [if_pos hpos, div_self (ne_of_gt hpos)]
      norm_num
    unfold assignedColor
    rw [hM, hns]
    ext <;> simp [lerpColor, defaultColor, highlightRed]

/-- Witness for C3: two results with positive scores, frustum "12"
scoring the maximum. -/
theorem c3_color_interpolation_witness :
    resultLookup [("12", (2 : ℚ)), ("7", (1 : ℚ))] "12" = some 2 ∧
    ((1 : ℚ) ≤ 2) ∧
    (0 < listMax (([("12", (2 : ℚ)), ("7", (1 : ℚ))] : List (String × ℚ)).map (fun p => p.2))) ∧
    (updateFrustum [("12", (2 : ℚ)), ("7", (1 : ℚ))] "12" ⟨false, defaultColor⟩ =
      { visible := true, color := assignedColor [("12", (2 : ℚ)), ("7", (1 : ℚ))] 2 } ∧
     assignedColor [("12", (2 : ℚ)), ("7", (1 : ℚ))] 2 =
      lerpColor defaultColor highlightRed
        (normalizedScore (computeMaxScore [("12", (2 : ℚ)), ("7", (1 : ℚ))]) 2) ∧
     (assignedColor [("12", (2 : ℚ)), ("7", (1 : ℚ))] 1).r ≤
      (assignedColor [("12", (2 : ℚ)), ("7", (1 : ℚ))] 2).r ∧
     assignedColor [("12", (2 : ℚ)), ("7", (1 : ℚ))]
        (listMax (([("12", (2 : ℚ)), ("7", (1 : ℚ))] : List (String × ℚ)).map (fun p => p.2))) =
      highlightRed) :=
  ⟨by simp [resultLookup], by norm_num,
    by simp [listMax],
    c3_color_interpolation [("12", (2 : ℚ)), ("7", (1 : ℚ))] "12" ⟨false, defaultColor⟩ 2 1 2
      (by simp [resultLookup]) (by norm_num)
      (by simp [listMax])⟩

theorem truncToInt_intCast (n : ℤ) : truncToInt (n : ℚ) = n := by
  unfold truncToInt
  split
  · exact Int.floor_intCast n
  · rw [← Int.cast_neg, Int.floor_intCast]
    ring

/-- C7 (amended): hover-then-unhover restores the frustum's prior color
up to the 8-bit-per-channel quantization performed by the
`getHexString`/`set` round trip (and preserves visibility, sets green
while hovering, and clears the stored attribute); the restoration is
exact whenever each prior channel is an integer multiple of `1/255`. -/
theorem c7_hover_restores_quantized (f : Frustum) :
    ((mouseoutCard (mouseoverCard none f).1 (mouseoverCard none f).2).2.color =
        setFromHexTriple (getHexTriple f.color) ∧
      (mouseoutCard (mouseoverCard none f).1 (mouseoverCard none f).2).2.visible = f.visible ∧
      (mouseoverCard none f).2.color = hoverGreen ∧
      (mouseoutCard (mouseoverCard none f).1 (mouseoverCard none f).2).1 = none) ∧
    (∀ rn gn bn : ℤ, f.color.r = rn / 255 → f.color.g = gn / 255 → f.color.b = bn / 255 →
      setFromHexTriple (getHexTriple f.color) = f.color) := by
  constructor
  · exact ⟨rfl, rfl, rfl, rfl⟩
  · rintro rn gn bn hr hg hb
    have h255 : (255 : ℚ) ≠ 0 := by norm_num
    ext
    · simp [setFromHexTriple, getHexTriple, hr, div_mul_cancel₀ _ h255, truncToInt_intCast]
    · simp [setFromHexTriple, getHexTriple, hg, div_mul_cancel₀ _ h255, truncToInt_intCast]
    · simp [setFromHexTriple, getHexTriple, hb, div_mul_cancel₀ _ h255, truncToInt_intCast]

/-- Witness for C7 (amended) at the default grey frustum, whose channels
are exact multiples of `1/255`, so the restore is exact. -/
theorem c7_hover_restores_quantized_witness :
    (((mouseoutCard (mouseoverCard none ⟨true, defaultColor⟩).1
          (mouseoverCard none ⟨true, defaultColor⟩).2).2.color =
        setFromHexTriple (getHexTriple (Frustum.mk true defaultColor).color) ∧
      (mouseoutCard (mouseoverCard none ⟨true, defaultColor⟩).1
          (mouseoverCard none ⟨true, defaultColor⟩).2).2.visible =
        (Frustum.mk true defaultColor).visible ∧
      (mouseoverCard none ⟨true, defaultColor⟩).2.color = hoverGreen ∧
      (mouseoutCard (mouseoverCard none ⟨true, defaultColor⟩).1
          (mouseoverCard none ⟨true, defaultColor⟩).2).1 = none) ∧
     (∀ rn gn bn : ℤ, (Frustum.mk true defaultColor).color.r = rn / 255 →
        (Frustum.mk true defaultColor).color.g = gn / 255 →
        (Frustum.mk true defaultColor).color.b = bn / 255 →
        setFromHexTriple (getHexTriple (Frustum.mk true defaultColor).color) =
          (Frustum.mk true defaultColor).color)) ∧
    setFromHexTriple (getHexTriple defaultColor) = defaultColor :=
  ⟨c7_hover_restores_quantized ⟨true, defaultColor⟩,
    (c7_hover_restores_quantized ⟨true, defaultColor⟩).2 136 136 136 rfl rfl rfl⟩

/-- C7 counterexample: a frustum whose red channel `243.1/255` is not an
exact 8-bit value; after mouseover and mouseout the restored color
(`243/255` in the red channel) differs from the prior color, so the
claim's "restores exactly" fails as stated. -/
theorem c7_exact_restore_counterexample :
    (mouseoutCard
        (mouseoverCard none ⟨true, ⟨2431/2550, 136/255, 136/255⟩⟩).1
        (mouseoverCard none ⟨true, ⟨2431/2550, 136/255, 136/255⟩⟩).2).2.color ≠
      (⟨2431/2550, 136/255, 136/255⟩ : Color) := by
  intro h
  have hr := congrArg Color.r h
  have hfl : ⌊(2431/2550 : ℚ) * 255⌋ = 243 := by
    rw [Int.floor_eq_iff]
    norm_num
  simp only [mouseoverCard, mouseoutCard, setFromHexTriple, getHexTriple, truncToInt] at hr
  rw [if_pos (by norm_num : (0 : ℚ) ≤ 2431/2550 * 255)] at hr
  rw [hfl] at hr
  norm_num at hr

/-- Witness for C10: term `"dog"` with an empty results array and one
previously highlighted frustum. -/
theorem c10_absent_frustums_reset_witness :
    trimString "dog" ≠ "" ∧
    ((∀ k f, (k, f) ∈ (performSearch "dog" (SearchResponse.ok ([] : List (String × ℚ)))
          ⟨[("3", ⟨true, highlightRed⟩)], GridContent.cards []⟩).1.frustums →
        k ∉ ([] : List (String × ℚ)).map (fun p => p.1) →
        f.visible = false ∧ f.color = defaultColor) ∧
     (([] : List (String × ℚ)) = [] →
       ∀ k f, (k, f) ∈ (performSearch "dog" (SearchResponse.ok ([] : List (String × ℚ)))
          ⟨[("3", ⟨true, highlightRed⟩)], GridContent.cards []⟩).1.frustums →
        f.visible = false ∧ f.color = defaultColor) ∧
     computeMaxScore [] = 0 ∧
     (∀ s : ℚ, normalizedScore (computeMaxScore []) s = 0)) :=
  ⟨by decide,
    c10_absent_frustums_reset "dog" ([] : List (String × ℚ))
      ⟨[("3", ⟨true, highlightRed⟩)], GridContent.cards []⟩ (by decide)⟩

/-- C6: for every search whose response is non-2xx or lacks an
array-valued `results` property, `performSearch` replaces the result
area with a non-empty error message and leaves every frustum (visibility
and color) exactly as it was. -/
theorem c6_error_path_preserves_frustums (term : String) (resp : SearchResponse) (st : UIState)
    (hterm : trimString term ≠ "") (herr : ∀ results, resp ≠ SearchResponse.ok results) :
    (performSearch term resp st).1.frustums = st.frustums ∧
    (performSearch term resp st).1.grid = GridContent.errorMsg (searchErrorText resp) ∧
    (performSearch term resp st).2 = true := by
  cases resp with
  | ok results => exact absurd rfl (herr results)
  | httpError st' =>
      exact ⟨by simp [performSearch, hterm], by simp [performSearch, hterm],
        by simp [performSearch, hterm]⟩
  | malformed =>
      exact ⟨by simp [performSearch, hterm], by simp [performSearch, hterm],
        by simp [performSearch, hterm]⟩

/-- Witness for C6 at term `"cat"` and a 502 response. -/
theorem c6_error_path_witness :
    trimString "cat" ≠ "" ∧
    ((performSearch "cat" (SearchResponse.httpError "Bad Gateway")
        ⟨[("3", ⟨true, highlightRed⟩)], GridContent.cards []⟩).1.frustums =
      [("3", ⟨true, highlightRed⟩)] ∧
     (performSearch "cat" (SearchResponse.httpError "Bad Gateway")
        ⟨[("3", ⟨true, highlightRed⟩)], GridContent.cards []⟩).1.grid =
      GridContent.errorMsg (searchErrorText (SearchResponse.httpError "Bad Gateway")) ∧
     (performSearch "cat" (SearchResponse.httpError "Bad Gateway")
        ⟨[("3", ⟨true, highlightRed⟩)], GridContent.cards []⟩).2 = true) :=
  ⟨by decide,
    c6_error_path_preserves_frustums "cat" (SearchResponse.httpError "Bad Gateway")
      ⟨[("3", ⟨true, highlightRed⟩)], GridContent.cards []⟩ (by decide)
      (fun results h => by cases h)⟩

theorem debounce_trailing_aux {α : Type} (w : ℕ) (l : List (ℕ × α)) :
    ∀ (e : ℕ) (pa : α),
      List.Chain' (fun p q : ℕ × α => p.1 ≤ q.1 ∧ q.1 < p.1 + w) l →
      (∀ p ∈ l.head?, p.1 < e) →
      debounceRun w false l (some (e, pa)) =
        [l.foldl (fun _ p => (p.1 + w, p.2)) (e, pa)] := by
  induction l with
  | nil =>
      intro e pa _ _
      simp [debounceRun]
  | cons hd rest ih =>
      obtain ⟨t, a⟩ := hd
      intro e pa hchain hhead
      have ht : t < e := hhead (t, a) rfl
      rw [List.chain'_cons'] at hchain
      obtain ⟨hhd, hch⟩ := hchain
      have step : debounceRun w false ((t, a) :: rest) (some (e, pa)) =
          debounceRun w false rest (some (t + w, a)) := by
        simp [debounceRun, if_neg (not_le.mpr ht)]
      rw [step, ih (t + w) a hch (fun p hp => (hhd p hp).2)]
      simp

theorem debounce_immediate_aux {α : Type} (w : ℕ) (l : List (ℕ × α)) :
    ∀ (e : ℕ) (pa : α),
      List.Chain' (fun p q : ℕ × α => p.1 ≤ q.1 ∧ q.1 < p.1 + w) l →
      (∀ p ∈ l.head?, p.1 < e) →
      debounceRun w true l (some (e, pa)) = [] := by
  induction l with
  | nil =>
      intro e pa _ _
      simp [debounceRun]
  | cons hd rest ih =>
      obtain ⟨t, a⟩ := hd
      intro e pa hchain hhead
      have ht : t < e := hhead (t, a) rfl
      rw [List.chain'_cons'] at hchain
      obtain ⟨hhd, hch⟩ := hchain
      have step : debounceRun w true ((t, a) :: rest) (some (e, pa)) =
          debounceRun w true rest (some (t + w, a)) := by
        simp [debounceRun, if_neg (not_le.mpr ht)]
      rw [step, ih (t + w) a hch (fun p hp => (hhd p hp).2)]

theorem foldl_const_getLast {σ β : Type} (g : σ → β) :
    ∀ (l : List σ) (h : l ≠ []) (init : β),
      l.foldl (fun _ p => g p) init = g (l.getLast h) := by
  intro l
  induction l with
  | nil =>
      intro h
      exact absurd rfl h
  | cons a rest ih =>
      intro h init
      cases rest with
      | nil => rfl
      | cons b rest' =>
          rw [List.foldl_cons, ih (List.cons_ne_nil _ _) _,
            List.getLast_cons (List.cons_ne_nil b rest')]

/-- C8: a burst of calls to the debounced wrapper, consecutive calls
spaced (weakly monotone and) strictly less than `wait` apart, causes
exactly one invocation of the wrapped function: with `immediate` unset,
the last call's payload (arguments and `this` context), fired `wait`
milliseconds after that last call; with `immediate` set, the first
call's payload, fired at the first call's time. -/
theorem c8_debounce_burst {α : Type} (w : ℕ) (t : ℕ) (a : α) (rest : List (ℕ × α))
    (hchain : List.Chain' (fun p q : ℕ × α => p.1 ≤ q.1 ∧ q.1 < p.1 + w) ((t, a) :: rest)) :
    debounceRun w false ((t, a) :: rest) none =
      [((((t, a) :: rest).getLast (List.cons_ne_nil _ _)).1 + w,
        (((t, a) :: rest).getLast (List.cons_ne_nil _ _)).2)] ∧
    debounceRun w true ((t, a) :: rest) none = [(t, a)] := by
  rw [List.chain'_cons'] at hchain
  obtain ⟨hhd, hch⟩ := hchain
  constructor
  · have h1 : debounceRun w false ((t, a) :: rest) none =
        debounceRun w false rest (some (t + w, a)) := by
      simp [debounceRun]
    rw [h1, debounce_trailing_aux w rest (t + w) a hch (fun p hp => (hhd p hp).2)]
    cases rest with
    | nil => rfl
    | cons b rest' =>
        rw [foldl_const_getLast (fun p : ℕ × α => (p.1 + w, p.2)) _ (List.cons_ne_nil _ _) _,
          List.getLast_cons (List.cons_ne_nil b rest')]
  · have h1 : debounceRun w true ((t, a) :: rest) none =
        (t, a) :: debounceRun w true rest (some (t + w, a)) := by
      simp [debounceRun]
    rw [h1, debounce_immediate_aux w rest (t + w) a hch (fun p hp => (hhd p hp).2)]

/-- Witness for C8: three calls at 0, 50, 120 ms with wait 100 ms;
trailing mode fires once at 220 ms with the last payload, immediate mode
fires once at 0 ms with the first payload. -/
theorem c8_debounce_burst_witness :
    List.Chain' (fun p q : ℕ × String => p.1 ≤ q.1 ∧ q.1 < p.1 + 100)
      [(0, "a"), (50, "b"), (120, "c")] ∧
    (debounceRun 100 false [(0, "a"), (50, "b"), (120, "c")] none =
      [((([(0, "a"), (50, "b"), (120, "c")] :
            List (ℕ × String)).getLast (List.cons_ne_nil _ _)).1 + 100,
        (([(0, "a"), (50, "b"), (120, "c")] :
            List (ℕ × String)).getLast (List.cons_ne_nil _ _)).2)] ∧
     debounceRun 100 true [(0, "a"), (50, "b"), (120, "c")] none = [(0, "a")]) :=
  ⟨by simp [List.chain'_cons],
    c8_debounce_burst 100 0 "a" [(50, "b"), (120, "c")] (by simp [List.chain'_cons])⟩

/-- C1: for every pose record with a unit world-to-camera quaternion,
the camera-to-world transform built by `loadAndDrawFrustums` (inverse
quaternion, translation `-(R⁻¹·t)`, unit scale) is the inverse of the
world-to-camera rigid transform: composing the two in either order is
the identity on every point. -/
theorem c1_pose_inversion_roundtrip (p : PoseRecord) (hu : (poseQuat p).isUnit) (v : Vec3) :
    (v.applyMatrix4 (worldToCamTransform p)).applyMatrix4 (camToWorldTransform p) = v ∧
    (v.applyMatrix4 (camToWorldTransform p)).applyMatrix4 (worldToCamTransform p) = v := by
  obtain ⟨qw, qx, qy, qz, tx, ty, tz⟩ := p
  obtain ⟨vx, vy, vz⟩ := v
  simp only [Quat.isUnit, poseQuat] at hu
  constructor
  · ext
    · simp only [Vec3.applyMatrix4, worldToCamTransform, camToWorldTransform,
        makeRotationFromQuaternion, composeMatrix, Quat.invert, poseQuat, poseTvec,
        Vec3.multiplyScalar]
      ring_nf
      linear_combination (4*(qy^2+qz^2)*vx - 4*qx*qy*vy - 4*qx*qz*vz) * hu
    · simp only [Vec3.applyMatrix4, worldToCamTransform, camToWorldTransform,
        makeRotationFromQuaternion, composeMatrix, Quat.invert, poseQuat, poseTvec,
        Vec3.multiplyScalar]
      ring_nf
      linear_combination (-4*qx*qy*vx + 4*(qx^2+qz^2)*vy - 4*qy*qz*vz) * hu
    · simp only [Vec3.applyMatrix4, worldToCamTransform, camToWorldTransform,
        makeRotationFromQuaternion, composeMatrix, Quat.invert, poseQuat, poseTvec,
        Vec3.multiplyScalar]
      ring_nf
      linear_combination (-4*qx*qz*vx - 4*qy*qz*vy + 4*(qx^2+qy^2)*vz) * hu
  · ext
    · simp only [Vec3.applyMatrix4, worldToCamTransform, camToWorldTransform,
        makeRotationFromQuaternion, composeMatrix, Quat.invert, poseQuat, poseTvec,
        Vec3.multiplyScalar]
      ring_nf
      linear_combination (4*(qy^2+qz^2)*(vx-tx) - 4*qx*qy*(vy-ty) - 4*qx*qz*(vz-tz)) * hu
    · simp only [Vec3.applyMatrix4, worldToCamTransform, camToWorldTransform,
        makeRotationFromQuaternion, composeMatrix, Quat.invert, poseQuat, poseTvec,
        Vec3.multiplyScalar]
      ring_nf
      linear_combination (-4*qx*qy*(vx-tx) + 4*(qx^2+qz^2)*(vy-ty) - 4*qy*qz*(vz-tz)) * hu
    · simp only [Vec3.applyMatrix4, worldToCamTransform, camToWorldTransform,
        makeRotationFromQuaternion, composeMatrix, Quat.invert, poseQuat, poseTvec,
        Vec3.multiplyScalar]
      ring_nf
      linear_combination (-4*qx*qz*(vx-tx) - 4*qy*qz*(vy-ty) + 4*(qx^2+qy^2)*(vz-tz)) * hu

/-- Witness for C1 at the unit quaternion `(w,x,y,z) = (3/5, 4/5, 0, 0)`,
translation `(1, 2, 3)`, point `(4, 5, 6)`. -/
theorem c1_pose_inversion_roundtrip_witness :
    (poseQuat ⟨3/5, 4/5, 0, 0, 1, 2, 3⟩).isUnit ∧
    ((Vec3.applyMatrix4 (Vec3.applyMatrix4 ⟨4, 5, 6⟩
        (worldToCamTransform ⟨3/5, 4/5, 0, 0, 1, 2, 3⟩))
        (camToWorldTransform ⟨3/5, 4/5, 0, 0, 1, 2, 3⟩) = ⟨4, 5, 6⟩) ∧
     (Vec3.applyMatrix4 (Vec3.applyMatrix4 ⟨4, 5, 6⟩
        (camToWorldTransform ⟨3/5, 4/5, 0, 0, 1, 2, 3⟩))
        (worldToCamTransform ⟨3/5, 4/5, 0, 0, 1, 2, 3⟩) = ⟨4, 5, 6⟩)) :=
  ⟨by norm_num [Quat.isUnit, poseQuat],
    c1_pose_inversion_roundtrip ⟨3/5, 4/5, 0, 0, 1, 2, 3⟩
      (by norm_num [Quat.isUnit, poseQuat]) ⟨4, 5, 6⟩⟩

end MapSearch
